import Mathlib

/-!
Verification of `numba/_helperlib.c`.

A shallow embedding of the helper routines of `_helperlib.c` together with
theorems about them.

* C `int64_t` values are integers in `[INT64_MIN, INT64_MAX]`, C `uint64_t`
  values are naturals `≤ UINT64_MAX`.
* A C expression whose behaviour is undefined yields `none`.
-/

namespace Helperlib

/-! ## 64-bit integers -/

/-- Smallest `int64_t` value. -/
def INT64_MIN : Int := -9223372036854775808

/-- Largest `int64_t` value. -/
def INT64_MAX : Int := 9223372036854775807

/-- Largest `uint64_t` value. -/
def UINT64_MAX : Nat := 18446744073709551615

/-- The integer is representable as an `int64_t`. -/
def isInt64 (a : Int) : Prop := INT64_MIN ≤ a ∧ a ≤ INT64_MAX

instance (a : Int) : Decidable (isInt64 a) := by
  unfold isInt64; infer_instance

/-- The natural number is representable as a `uint64_t`. -/
def isUInt64 (a : Nat) : Prop := a ≤ UINT64_MAX

instance (a : Nat) : Decidable (isUInt64 a) := by
  unfold isUInt64; infer_instance

/-- Reduction of a mathematical integer to its 64-bit two's-complement
representative. -/
def wrapInt64 (x : Int) : Int :=
  (x + 9223372036854775808) % 18446744073709551616 - 9223372036854775808

/-- Source: `int64_t Numba_sdiv(int64_t a, int64_t b) { return a / b; }`

C's `/` on signed operands is the algebraic quotient with the fractional part
discarded.  The behaviour is undefined when `b` is zero and when the quotient
is not representable (`INT64_MIN / -1`). -/
def Numba_sdiv (a b : Int) : Option Int :=
  if b = 0 then none
  else if a = INT64_MIN ∧ b = -1 then none
  else some (Int.tdiv a b)

/-- Source: `uint64_t Numba_udiv(uint64_t a, uint64_t b) { return a / b; }`

The behaviour is undefined when `b` is zero. -/
def Numba_udiv (a b : Nat) : Option Nat :=
  if b = 0 then none
  else some (a / b)

/-- Source: `int64_t Numba_srem(int64_t a, int64_t b) { return a % b; }`

C's `%` on signed operands satisfies `(a/b)*b + a%b == a` when `a/b` is
representable; the behaviour is undefined when `b` is zero and when `a/b` is
not representable (`INT64_MIN % -1`, C11 6.5.5 paragraph 6; the x86 division
instruction traps on it as it does on `INT64_MIN / -1`). -/
def Numba_srem (a b : Int) : Option Int :=
  if b = 0 then none
  else if a = INT64_MIN ∧ b = -1 then none
  else some (Int.tmod a b)

/-- Source: `uint64_t Numba_urem(uint64_t a, uint64_t b) { return a % b; }`

The behaviour is undefined when `b` is zero. -/
def Numba_urem (a b : Nat) : Option Nat :=
  if b = 0 then none
  else some (a % b)

/-- The exact rational `a / b` rounded toward zero: the floor of a
non-negative quotient, the ceiling of a negative one. -/
def truncQuotient (a b : Int) : Int :=
  let q : ℚ := (a : ℚ) / (b : ℚ)
  if 0 ≤ q then Int.floor q else Int.ceil q

/-- Rounding toward zero, on rationals. -/
def truncRat (q : ℚ) : Int := if 0 ≤ q then Int.floor q else Int.ceil q

/-! ## Host object model

The helpers `Numba_to_complex` and `Numba_extract_record_data` call into the
host interpreter.  The host is a parameter: a record of the results its API
functions give for each object.  Reference counts, outstanding buffer views and
the sequence of resource-relevant API calls are threaded through a `World`. -/

/-- Native addresses (`void*`). -/
abbrev Ptr := Int

/-- The null pointer. -/
def NULL : Ptr := 0

/-- Source type `Py_complex`: a pair of doubles. -/
structure Py_complex (D : Type) where
  real : D
  imag : D
deriving DecidableEq, Repr

/-- The part of `Py_buffer` that the code reads. -/
structure Py_buffer where
  buf : Ptr
deriving DecidableEq, Repr

/-- Results of the host API on objects of type `Obj`, doubles being values of
type `D`.  A `NULL` object result is `none`; a `-1` return of
`PyObject_GetBuffer` is `none`. -/
structure Host (Obj D : Type) where
  /-- Host call `PyComplex_Check(obj)`. -/
  PyComplex_Check : Obj → Bool
  /-- Host call `PyComplex_RealAsDouble(obj)`. -/
  PyComplex_RealAsDouble : Obj → D
  /-- Host call `PyComplex_ImagAsDouble(obj)`. -/
  PyComplex_ImagAsDouble : Obj → D
  /-- Host call `PyNumber_Float(obj)`: a new reference to a float object, or `NULL`. -/
  PyNumber_Float : Obj → Option Obj
  /-- Host call `PyFloat_AsDouble(fobj)`. -/
  PyFloat_AsDouble : Obj → D
  /-- The double literal `0.`. -/
  zero : D
  /-- Host call `PyObject_GetAttrString(obj, name)`: a new reference, or `NULL`. -/
  PyObject_GetAttrString : Obj → String → Option Obj
  /-- Host call `PyObject_GetBuffer(obj, &buf, 0)`: the filled view, or `-1`. -/
  PyObject_GetBuffer : Obj → Option Py_buffer
  /-- Field `b_base` of the object read as a `PyBufferObject_Hack`. -/
  b_base : Obj → Option Obj
  /-- Field `b_ptr` of the object read as a `PyBufferObject_Hack`. -/
  b_ptr : Obj → Ptr
  /-- Field `b_offset` of the object read as a `PyBufferObject_Hack`. -/
  b_offset : Obj → Int
  /-- Outcome of `(*proc)(base, 0, &ptr)` for
  `proc = base->ob_type->tp_as_buffer->bf_getreadbuffer`: the returned count
  and the pointer stored in `ptr`; `none` when `tp_as_buffer` or the
  procedure pointer is null (the call is then undefined). -/
  bf_getreadbuffer : Obj → Option (Int × Ptr)

/-- Resource-relevant host API calls, with their results. -/
inductive Event (Obj : Type) where
  | PyNumber_Float (obj : Obj) (result : Option Obj)
  | Py_DECREF (obj : Obj)
  | PyObject_GetAttrString (obj : Obj) (name : String) (result : Option Obj)
  | PyObject_GetBuffer (obj : Obj) (result : Option Py_buffer)
deriving DecidableEq, Repr

/-- The reference, if any, that the event hands to the caller: the result of
a call returning a new reference, and the strong reference to the exporter
that a filled buffer view holds in `view->obj`. -/
def Event.acquiredRef {Obj : Type} : Event Obj → Option Obj
  | .PyNumber_Float _ r => r
  | .PyObject_GetAttrString _ _ r => r
  | .PyObject_GetBuffer o (some _) => some o
  | _ => none

/-- The reference, if any, that the event gives up. -/
def Event.releasedRef {Obj : Type} : Event Obj → Option Obj
  | .Py_DECREF o => some o
  | _ => none

/-- The object, if any, on which the event opens a buffer view. -/
def Event.acquiredView {Obj : Type} : Event Obj → Option Obj
  | .PyObject_GetBuffer o (some _) => some o
  | _ => none

/-- Interpreter state relevant to ownership: reference counts, the number of
unreleased buffer views per exporter, and the API calls made so far. -/
structure World (Obj : Type) where
  ob_refcnt : Obj → Int
  views : Obj → Int
  log : List (Event Obj)

/-- Host call `PyNumber_Float(obj)` as a step on the world: on success the result
carries a new reference. -/
def callPyNumber_Float {Obj D : Type} [DecidableEq Obj] (h : Host Obj D) (obj : Obj)
    (w : World Obj) : Option Obj × World Obj :=
  match h.PyNumber_Float obj with
  | none => (none, { w with log := w.log ++ [Event.PyNumber_Float obj none] })
  | some f =>
    (some f, { w with ob_refcnt := Function.update w.ob_refcnt f (w.ob_refcnt f + 1)
                      log := w.log ++ [Event.PyNumber_Float obj (some f)] })

/-- Host call `Py_DECREF(o)` as a step on the world. -/
def Py_DECREF {Obj : Type} [DecidableEq Obj] (o : Obj) (w : World Obj) : World Obj :=
  { w with ob_refcnt := Function.update w.ob_refcnt o (w.ob_refcnt o - 1)
           log := w.log ++ [Event.Py_DECREF o] }

/-- Host call `PyObject_GetAttrString(obj, name)` as a step on the world: on success the
result carries a new reference. -/
def callPyObject_GetAttrString {Obj D : Type} [DecidableEq Obj] (h : Host Obj D) (obj : Obj)
    (name : String) (w : World Obj) : Option Obj × World Obj :=
  match h.PyObject_GetAttrString obj name with
  | none => (none, { w with log := w.log ++ [Event.PyObject_GetAttrString obj name none] })
  | some a =>
    (some a, { w with ob_refcnt := Function.update w.ob_refcnt a (w.ob_refcnt a + 1)
                      log := w.log ++ [Event.PyObject_GetAttrString obj name (some a)] })

/-- Host call `PyObject_GetBuffer(obj, &buf, 0)` as a step on the world: on success a
view on `obj` is open until `PyBuffer_Release`, and the view holds a new
strong reference to the exporter `obj` (stored in `view->obj`), which only
`PyBuffer_Release` gives up. -/
def callPyObject_GetBuffer {Obj D : Type} [DecidableEq Obj] (h : Host Obj D) (obj : Obj)
    (w : World Obj) : Option Py_buffer × World Obj :=
  match h.PyObject_GetBuffer obj with
  | none => (none, { w with log := w.log ++ [Event.PyObject_GetBuffer obj none] })
  | some buf =>
    (some buf, { w with ob_refcnt := Function.update w.ob_refcnt obj (w.ob_refcnt obj + 1)
                        views := Function.update w.views obj (w.views obj + 1)
                        log := w.log ++ [Event.PyObject_GetBuffer obj (some buf)] })

/-! ## Coercion and buffer extraction -/

/-- Source: `int Numba_to_complex(PyObject* obj, Py_complex *out)`: the return value,
the contents of `*out` and the world after the call. -/
def Numba_to_complex {Obj D : Type} [DecidableEq Obj] (h : Host Obj D) (obj : Obj)
    (out : Py_complex D) (w : World Obj) : Int × Py_complex D × World Obj :=
  if h.PyComplex_Check obj then
    let out := { out with real := h.PyComplex_RealAsDouble obj }
    let out := { out with imag := h.PyComplex_ImagAsDouble obj }
    (1, out, w)
  else
    match callPyNumber_Float h obj w with
    | (none, w) => (0, out, w)
    | (some fobj, w) =>
      let out := { out with real := h.PyFloat_AsDouble fobj }
      let out := { out with imag := h.zero }
      let w := Py_DECREF fobj w
      (1, out, w)

/-- Source: `void* Numba_extract_record_data(PyObject *recordobj)`, for a build against
host major version `PY_MAJOR_VERSION`: the returned pointer and the world
after the call, or `none` when the legacy branch calls through a null
pointer. -/
def Numba_extract_record_data {Obj D : Type} [DecidableEq Obj] (h : Host Obj D)
    (PY_MAJOR_VERSION : Nat) (recordobj : Obj) (w : World Obj) : Option (Ptr × World Obj) :=
  match callPyObject_GetAttrString h recordobj "data" w with
  | (none, w) => some (NULL, w)
  | (some attrdata, w) =>
    match callPyObject_GetBuffer h attrdata w with
    | (none, w) =>
      if PY_MAJOR_VERSION ≥ 3 then
        some (NULL, w)
      else
        match h.b_base attrdata with
        | none =>
          let ptr := h.b_ptr attrdata
          some (ptr, Py_DECREF attrdata w)
        | some b_base =>
          match h.bf_getreadbuffer b_base with
          | none => none
          | some (n, ptr) =>
            if n ≤ 0 then
              some (NULL, w)
            else
              let ptr := ptr + h.b_offset attrdata
              some (ptr, Py_DECREF attrdata w)
    | (some buf, w) =>
      let ptr := buf.buf
      some (ptr, Py_DECREF attrdata w)

/-- The events logged between two worlds. -/
def eventsSince {Obj : Type} (w w' : World Obj) : List (Event Obj) :=
  w'.log.drop w.log.length

/-! ## Registry -/

/-- A function defined by `EXPOSE(Fn, Sym)`: the accessor `Sym`, whose body is
`return PyLong_FromVoidPtr(&Fn);`. -/
structure Accessor where
  Sym : String
  Fn : String
deriving DecidableEq, Repr

/-- Source: `#define EXPOSE(Fn, Sym) static void* Sym(){return PyLong_FromVoidPtr(&Fn);}` -/
def EXPOSE (Fn Sym : String) : Accessor := { Sym := Sym, Fn := Fn }

/-- The accessors defined in the file: the seven `EXPOSE` lines, then one
`get_##F` returning `&Numba_##F` for every function `F` listed in
`mathnames.inc`. -/
def accessors (mathnames : List String) : List Accessor :=
  [ EXPOSE "Numba_sdiv" "get_sdiv",
    EXPOSE "Numba_srem" "get_srem",
    EXPOSE "Numba_udiv" "get_udiv",
    EXPOSE "Numba_urem" "get_urem",
    EXPOSE "Numba_cpow" "get_cpow",
    EXPOSE "Numba_to_complex" "get_complex_adaptor",
    EXPOSE "Numba_extract_record_data" "get_extract_record_data" ]
  ++ mathnames.map (fun F => EXPOSE ("Numba_" ++ F) ("get_" ++ F))

/-- An entry of the method table: its name and the symbol of the function it
points to. -/
structure PyMethodDef where
  ml_name : String
  ml_meth : String
deriving DecidableEq, Repr

/-- Source: `#define declmethod(func) { #func , ( PyCFunction )func , METH_VARARGS , NULL }` -/
def declmethod (func : String) : PyMethodDef := { ml_name := func, ml_meth := func }

/-- The method table `ext_methods`, up to its `{ NULL }` sentinel, for the
functions `F` listed in `mathnames.inc`. -/
def ext_methods (mathnames : List String) : List PyMethodDef :=
  [ declmethod "get_sdiv",
    declmethod "get_srem",
    declmethod "get_udiv",
    declmethod "get_urem",
    declmethod "get_cpow",
    declmethod "get_complex_adaptor",
    declmethod "get_extract_record_data" ]
  ++ mathnames.map (fun F => declmethod ("get_" ++ F))

/-- The helper whose address the function named `sym` returns. -/
def accessorTarget (mathnames : List String) (sym : String) : Option String :=
  ((accessors mathnames).find? (fun a => a.Sym == sym)).map (fun a => a.Fn)

/-- Lookup by name as the host performs it on the method table: the first
entry carrying the name is called; the result is the helper whose address
comes back, `none` when no entry carries the name. -/
def lookup (mathnames : List String) (name : String) : Option String :=
  match (ext_methods mathnames).find? (fun m => m.ml_name == name) with
  | none => none
  | some m => accessorTarget mathnames m.ml_meth

/-- The names that the seven `EXPOSE` lines give to accessors, without their
`get_` prefix. -/
def exposedSuffixes : List String :=
  ["sdiv", "srem", "udiv", "urem", "cpow", "complex_adaptor", "extract_record_data"]

/-- The seven accessor names with the helper each is to return, as the
registry is described: `get_sdiv` for `Numba_sdiv`, and so on. -/
def exposedBindings : List (String × String) :=
  [ ("get_sdiv", "Numba_sdiv"),
    ("get_srem", "Numba_srem"),
    ("get_udiv", "Numba_udiv"),
    ("get_urem", "Numba_urem"),
    ("get_cpow", "Numba_cpow"),
    ("get_complex_adaptor", "Numba_to_complex"),
    ("get_extract_record_data", "Numba_extract_record_data") ]

/-! ## A small concrete host -/

/-- Objects of a small host: integers, floats, complex numbers, strings,
objects exporting a buffer view, legacy buffer objects (with their own
memory or on a base object), and records with or
without a `data` attribute. -/
inductive ToyObj where
  | int (n : Int)
  | float (x : Int)
  | complex (re im : Int)
  | str (s : String)
  | array (addr : Ptr)
  | oldbuffer (b_ptr : Ptr) (b_offset : Int)
  | oldbufferOn (b_base : ToyObj) (b_offset : Int)
  | record (data : ToyObj)
  | bare
deriving DecidableEq, Repr

/-- The small host; its doubles are integers. -/
def toyHost : Host ToyObj Int where
  PyComplex_Check := fun o => match o with
    | .complex _ _ => true
    | _ => false
  PyComplex_RealAsDouble := fun o => match o with
    | .complex re _ => re
    | _ => -1
  PyComplex_ImagAsDouble := fun o => match o with
    | .complex _ im => im
    | _ => -1
  PyNumber_Float := fun o => match o with
    | .int n => some (.float n)
    | .float x => some (.float x)
    | _ => none
  PyFloat_AsDouble := fun o => match o with
    | .float x => x
    | _ => -1
  zero := 0
  PyObject_GetAttrString := fun o name => match o with
    | .record d => if name = "data" then some d else none
    | _ => none
  PyObject_GetBuffer := fun o => match o with
    | .array addr => some { buf := addr }
    | _ => none
  b_base := fun o => match o with
    | .oldbufferOn base _ => some base
    | _ => none
  b_ptr := fun o => match o with
    | .oldbuffer p _ => p
    | _ => 0
  b_offset := fun o => match o with
    | .oldbuffer _ off => off
    | .oldbufferOn _ off => off
    | _ => 0
  bf_getreadbuffer := fun o => match o with
    | .array addr => some (8, addr)
    | .str _ => some (-1, 0)
    | _ => none

/-- A world in which nothing is referenced and no view is open. -/
def emptyWorld : World ToyObj := { ob_refcnt := fun _ => 0, views := fun _ => 0, log := [] }

/-! ## Truncating division: auxiliary facts -/

theorem truncRat_neg (q : ℚ) : truncRat (-q) = -truncRat q := by
  unfold truncRat
  rcases lt_trichotomy q 0 with h | h | h
  · have h1 : (0 : ℚ) ≤ -q := by linarith
    have h2 : ¬ (0 : ℚ) ≤ q := by linarith
    rw [if_pos h1, if_neg h2, Int.floor_neg]
  · subst h; simp
  · have h1 : ¬ (0 : ℚ) ≤ -q := by linarith
    have h2 : (0 : ℚ) ≤ q := by linarith
    rw [if_neg h1, if_pos h2, Int.ceil_neg]

theorem truncQuotient_eq_truncRat (a b : Int) :
    truncQuotient a b = truncRat ((a : ℚ) / (b : ℚ)) := rfl

theorem truncQuotient_natCast (n d : Nat) :
    truncQuotient (n : Int) (d : Int) = Int.tdiv (n : Int) (d : Int) := by
  rw [truncQuotient_eq_truncRat]
  have h0 : (0 : ℚ) ≤ ((n : Int) : ℚ) / ((d : Int) : ℚ) := by positivity
  unfold truncRat
  rw [if_pos h0]
  have h := Rat.floor_intCast_div_natCast (n : Int) d
  rw [Int.tdiv_eq_ediv (Int.ofNat_nonneg n) (Int.ofNat_nonneg d)]
  rw [← h]
  norm_cast

theorem truncQuotient_neg_left (a b : Int) :
    truncQuotient (-a) b = -truncQuotient a b := by
  rw [truncQuotient_eq_truncRat, truncQuotient_eq_truncRat, ← truncRat_neg]
  congr 1
  push_cast
  ring

theorem truncQuotient_neg_right (a b : Int) :
    truncQuotient a (-b) = -truncQuotient a b := by
  rw [truncQuotient_eq_truncRat, truncQuotient_eq_truncRat, ← truncRat_neg]
  congr 1
  push_cast
  rw [div_neg]

/-- Rounding the exact quotient toward zero is `Int.tdiv`. -/
theorem truncQuotient_eq_tdiv (a b : Int) : truncQuotient a b = Int.tdiv a b := by
  obtain ⟨n, rfl | rfl⟩ := Int.eq_nat_or_neg a <;>
  obtain ⟨d, rfl | rfl⟩ := Int.eq_nat_or_neg b
  · exact truncQuotient_natCast n d
  · rw [truncQuotient_neg_right, Int.tdiv_neg, truncQuotient_natCast]
  · rw [truncQuotient_neg_left, Int.neg_tdiv, truncQuotient_natCast]
  · rw [truncQuotient_neg_left, truncQuotient_neg_right, Int.neg_tdiv, Int.tdiv_neg,
      truncQuotient_natCast]

theorem natAbs_tmod (a b : Int) : (Int.tmod a b).natAbs = a.natAbs % b.natAbs := by
  cases a <;> cases b <;> simp [Int.tmod] <;> rfl

theorem tmod_nonpos_of_nonpos (a b : Int) (h : a ≤ 0) : Int.tmod a b ≤ 0 := by
  cases a with
  | ofNat n =>
    have hn : n = 0 := by
      have h' : (n : Int) ≤ 0 := h
      omega
    subst hn
    simp
  | negSucc m =>
    cases b with
    | ofNat n => exact Int.neg_nonpos_of_nonneg (Int.ofNat_nonneg _)
    | negSucc n => exact Int.neg_nonpos_of_nonneg (Int.ofNat_nonneg _)

theorem natAbs_tmod_lt (a b : Int) (hb : b ≠ 0) : (Int.tmod a b).natAbs < b.natAbs := by
  rw [natAbs_tmod]
  exact Nat.mod_lt _ (by omega)

theorem natAbs_tmod_le (a b : Int) : (Int.tmod a b).natAbs ≤ a.natAbs := by
  rw [natAbs_tmod]
  exact Nat.mod_le _ _

theorem wrapInt64_of_isInt64 (x : Int) (h : isInt64 x) : wrapInt64 x = x := by
  unfold isInt64 INT64_MIN INT64_MAX at h
  unfold wrapInt64
  omega

/-- The remainder of two `int64_t` values is an `int64_t` value. -/
theorem isInt64_tmod (a b : Int) (ha : isInt64 a) : isInt64 (Int.tmod a b) := by
  have h := natAbs_tmod_le a b
  unfold isInt64 INT64_MIN INT64_MAX at *
  rcases le_total 0 a with h0 | h0
  · have := Int.tmod_nonneg b h0
    omega
  · have := tmod_nonpos_of_nonpos a b h0
    omega

/-- The quotient of two `int64_t` values is an `int64_t` value, except for
`INT64_MIN / -1`. -/
theorem isInt64_tdiv (a b : Int) (ha : isInt64 a) (hb0 : b ≠ 0)
    (hov : ¬ (a = INT64_MIN ∧ b = -1)) : isInt64 (Int.tdiv a b) := by
  have h : (Int.tdiv a b).natAbs = a.natAbs / b.natAbs := Int.natAbs_tdiv a b
  unfold isInt64 INT64_MIN INT64_MAX at *
  by_cases h1 : b = 1
  · subst h1
    simpa using ha
  by_cases h2 : b = -1
  · subst h2
    rw [Int.tdiv_neg, Int.tdiv_one]
    omega
  · have hb2 : 2 ≤ b.natAbs := by omega
    have hle : a.natAbs / b.natAbs ≤ a.natAbs / 2 := Nat.div_le_div_left hb2 (by decide)
    omega

/-- The product `(a / b) * b` of the truncating quotient with the divisor lies
between `0` and `a`, hence is an `int64_t` value. -/
theorem isInt64_tdiv_mul (a b : Int) (ha : isInt64 a) : isInt64 (Int.tdiv a b * b) := by
  have h1 := Int.tdiv_add_tmod' a b
  have h2 := natAbs_tmod_le a b
  unfold isInt64 INT64_MIN INT64_MAX at *
  rcases le_total 0 a with h0 | h0
  · have := Int.tmod_nonneg b h0
    omega
  · have := tmod_nonpos_of_nonpos a b h0
    omega

theorem Numba_sdiv_eq (a b : Int) (hb0 : b ≠ 0) (hov : ¬ (a = INT64_MIN ∧ b = -1)) :
    Numba_sdiv a b = some (Int.tdiv a b) := by
  unfold Numba_sdiv
  rw [if_neg hb0, if_neg hov]

theorem Numba_srem_eq (a b : Int) (hb0 : b ≠ 0) (hov : ¬ (a = INT64_MIN ∧ b = -1)) :
    Numba_srem a b = some (Int.tmod a b) := by
  unfold Numba_srem
  rw [if_neg hb0, if_neg hov]

/-! ## Integer division and remainder -/

/-- The quotient rounds toward zero on the sample inputs. -/
theorem Numba_sdiv_samples :
    Numba_sdiv (-7) 2 = some (-3) ∧ Numba_sdiv 7 (-2) = some (-3) ∧
    Numba_sdiv 7 2 = some 3 ∧ Numba_sdiv (-7) (-2) = some 3 ∧
    Numba_sdiv 7 0 = none ∧ Numba_sdiv INT64_MIN (-1) = none ∧
    Numba_sdiv INT64_MIN 1 = some INT64_MIN := by decide

/-- The remainder takes the sign of the dividend on the sample inputs. -/
theorem Numba_srem_samples :
    Numba_srem (-7) 2 = some (-1) ∧ Numba_srem 7 (-2) = some 1 ∧
    Numba_srem 7 2 = some 1 ∧ Numba_srem (-7) (-2) = some (-1) ∧
    Numba_srem 7 0 = none ∧ Numba_srem INT64_MIN (-1) = none := by decide

/-- C1, as stated, fails: `INT64_MIN` and `-1` are `int64_t` values with a
nonzero divisor, yet `Numba_sdiv` and `Numba_srem` have no result there, so no
quotient and remainder satisfy the reconstruction identity. -/
theorem C1_sdiv_srem_identity_fails :
    isInt64 INT64_MIN ∧ isInt64 (-1) ∧ (-1 : Int) ≠ 0 ∧
    ¬ ∃ q r, Numba_sdiv INT64_MIN (-1) = some q ∧ Numba_srem INT64_MIN (-1) = some r ∧
        wrapInt64 (wrapInt64 (q * (-1)) + r) = INT64_MIN := by
  refine ⟨by decide, by decide, by decide, ?_⟩
  rintro ⟨q, r, hq, -, -⟩
  have hn : Numba_sdiv INT64_MIN (-1) = none := by decide
  rw [hn] at hq
  cases hq

/-- C1 (amended): for `int64_t` values `a` and `b` with `b ≠ 0`, other than
`a = INT64_MIN` with `b = -1`, both `Numba_sdiv` and `Numba_srem` return
`int64_t` values and `Numba_sdiv(a, b) * b + Numba_srem(a, b) == a` with the
multiplication and the addition taken in 64-bit two's-complement
arithmetic. -/
theorem C1_sdiv_srem_identity (a b : Int) (ha : isInt64 a) (_hb : isInt64 b) (hb0 : b ≠ 0)
    (hov : ¬ (a = INT64_MIN ∧ b = -1)) :
    ∃ q r, Numba_sdiv a b = some q ∧ Numba_srem a b = some r ∧ isInt64 q ∧ isInt64 r ∧
      wrapInt64 (wrapInt64 (q * b) + r) = a := by
  refine ⟨Int.tdiv a b, Int.tmod a b, Numba_sdiv_eq a b hb0 hov, Numba_srem_eq a b hb0 hov,
    isInt64_tdiv a b ha hb0 hov, isInt64_tmod a b ha, ?_⟩
  rw [wrapInt64_of_isInt64 _ (isInt64_tdiv_mul a b ha), Int.tdiv_add_tmod' a b]
  exact wrapInt64_of_isInt64 a ha

/-- Witness for C1 (amended) at `a = -7`, `b = 2`. -/
theorem C1_sdiv_srem_identity_witness :
    ∃ q r, Numba_sdiv (-7) 2 = some q ∧ Numba_srem (-7) 2 = some r ∧ isInt64 q ∧ isInt64 r ∧
      wrapInt64 (wrapInt64 (q * 2) + r) = -7 :=
  C1_sdiv_srem_identity (-7) 2 (by decide) (by decide) (by decide) (by decide)

/-- C2: for `uint64_t` values `a` and `b` with `b ≠ 0`, `Numba_udiv` and
`Numba_urem` return `uint64_t` values with
`Numba_udiv(a, b) * b + Numba_urem(a, b) = a` over the natural numbers, the
product and the sum both staying within `uint64_t`. -/
theorem C2_udiv_urem_identity (a b : Nat) (ha : isUInt64 a) (_hb : isUInt64 b) (hb0 : b ≠ 0) :
    ∃ q r, Numba_udiv a b = some q ∧ Numba_urem a b = some r ∧ isUInt64 q ∧ isUInt64 r ∧
      q * b + r = a ∧ isUInt64 (q * b) ∧ isUInt64 (q * b + r) := by
  have hid : a / b * b + a % b = a := Nat.div_add_mod' a b
  have hq : a / b ≤ a := Nat.div_le_self a b
  have hr : a % b ≤ a := Nat.mod_le a b
  refine ⟨a / b, a % b, by simp [Numba_udiv, hb0], by simp [Numba_urem, hb0], ?_, ?_, hid, ?_, ?_⟩
  all_goals unfold isUInt64 at *
  all_goals omega

/-- Witness for C2 at `a = UINT64_MAX`, `b = 7`. -/
theorem C2_udiv_urem_identity_witness :
    ∃ q r, Numba_udiv UINT64_MAX 7 = some q ∧ Numba_urem UINT64_MAX 7 = some r ∧
      isUInt64 q ∧ isUInt64 r ∧ q * 7 + r = UINT64_MAX ∧ isUInt64 (q * 7) ∧
      isUInt64 (q * 7 + r) :=
  C2_udiv_urem_identity UINT64_MAX 7 (by decide) (by decide) (by decide)

/-- C3, as stated, fails: for the `int64_t` values `INT64_MIN` and `-1` the
divisor is nonzero and the exact quotient rounded toward zero is `2^63`, which
is no `int64_t` value; `Numba_sdiv` has no result there. -/
theorem C3_sdiv_truncating_fails :
    isInt64 INT64_MIN ∧ isInt64 (-1) ∧ (-1 : Int) ≠ 0 ∧
    truncQuotient INT64_MIN (-1) = 9223372036854775808 ∧
    ¬ isInt64 (truncQuotient INT64_MIN (-1)) ∧
    Numba_sdiv INT64_MIN (-1) ≠ some (truncQuotient INT64_MIN (-1)) := by
  have h : truncQuotient INT64_MIN (-1) = 9223372036854775808 := by
    rw [truncQuotient_eq_tdiv]
    decide
  refine ⟨by decide, by decide, by decide, h, ?_, ?_⟩
  · rw [h]
    decide
  · rw [h]
    decide

/-- C3 (amended): for `int64_t` values `a` and `b` with `b ≠ 0`, other than
`a = INT64_MIN` with `b = -1`, `Numba_sdiv(a, b)` returns the exact rational
`a / b` rounded toward zero, an `int64_t` value. -/
theorem C3_sdiv_truncating (a b : Int) (ha : isInt64 a) (_hb : isInt64 b) (hb0 : b ≠ 0)
    (hov : ¬ (a = INT64_MIN ∧ b = -1)) :
    Numba_sdiv a b = some (truncQuotient a b) ∧ isInt64 (truncQuotient a b) := by
  rw [truncQuotient_eq_tdiv]
  exact ⟨Numba_sdiv_eq a b hb0 hov, isInt64_tdiv a b ha hb0 hov⟩

/-- Witness for C3 (amended) at `a = 7`, `b = -2`. -/
theorem C3_sdiv_truncating_witness :
    Numba_sdiv 7 (-2) = some (truncQuotient 7 (-2)) ∧ isInt64 (truncQuotient 7 (-2)) :=
  C3_sdiv_truncating 7 (-2) (by decide) (by decide) (by decide) (by decide)

/-- C10, as stated, fails: `INT64_MIN` and `-1` are `int64_t` values with a
nonzero divisor, yet `Numba_srem` has no result there. -/
theorem C10_srem_truncating_fails :
    isInt64 INT64_MIN ∧ isInt64 (-1) ∧ (-1 : Int) ≠ 0 ∧
    ¬ ∃ r, Numba_srem INT64_MIN (-1) = some r ∧ |r| < |(-1 : Int)| ∧
        (r = 0 ∨ Int.sign r = Int.sign INT64_MIN) := by
  refine ⟨by decide, by decide, by decide, ?_⟩
  rintro ⟨r, hr, -⟩
  have hn : Numba_srem INT64_MIN (-1) = none := by decide
  rw [hn] at hr
  cases hr

/-- C10 (amended): for `int64_t` values `a` and `b` with `b ≠ 0`, other than
`a = INT64_MIN` with `b = -1`, `Numba_srem(a, b)` returns the truncating
remainder: the `int64_t` value `r = a - q * b` for `q` the exact rational
`a / b` rounded toward zero; it has `|r| < |b|` and is zero or has the sign of
the dividend `a`. -/
theorem C10_srem_truncating (a b : Int) (ha : isInt64 a) (_hb : isInt64 b) (hb0 : b ≠ 0)
    (hov : ¬ (a = INT64_MIN ∧ b = -1)) :
    ∃ r, Numba_srem a b = some r ∧ r = a - truncQuotient a b * b ∧ isInt64 r ∧ |r| < |b| ∧
      (r = 0 ∨ Int.sign r = Int.sign a) := by
  refine ⟨Int.tmod a b, Numba_srem_eq a b hb0 hov, ?_, isInt64_tmod a b ha, ?_, ?_⟩
  · rw [truncQuotient_eq_tdiv, Int.tmod_def, Int.mul_comm]
  · have h := natAbs_tmod_lt a b hb0
    rw [Int.abs_eq_natAbs, Int.abs_eq_natAbs]
    exact_mod_cast h
  · by_cases hr : Int.tmod a b = 0
    · exact Or.inl hr
    · right
      rcases lt_trichotomy a 0 with h0 | h0 | h0
      · have h1 := tmod_nonpos_of_nonpos a b (le_of_lt h0)
        have h2 : Int.tmod a b < 0 := lt_of_le_of_ne h1 hr
        rw [Int.sign_eq_neg_one_of_neg h2, Int.sign_eq_neg_one_of_neg h0]
      · subst h0
        simp at hr
      · have h1 := Int.tmod_nonneg b (le_of_lt h0)
        have h2 : 0 < Int.tmod a b := lt_of_le_of_ne h1 (Ne.symm hr)
        rw [Int.sign_eq_one_of_pos h2, Int.sign_eq_one_of_pos h0]

/-- Witness for C10 (amended) at `a = -7`, `b = 2` and at `a = 7`, `b = -2`,
where the remainders are `-1` and `1`. -/
theorem C10_srem_truncating_witness :
    (Numba_srem (-7) 2 = some (-1) ∧
      ∃ r, Numba_srem (-7) 2 = some r ∧ r = -7 - truncQuotient (-7) 2 * 2 ∧ isInt64 r ∧
        |r| < |(2 : Int)| ∧ (r = 0 ∨ Int.sign r = Int.sign (-7))) ∧
    (Numba_srem 7 (-2) = some 1 ∧
      ∃ r, Numba_srem 7 (-2) = some r ∧ r = 7 - truncQuotient 7 (-2) * (-2) ∧ isInt64 r ∧
        |r| < |(-2 : Int)| ∧ (r = 0 ∨ Int.sign r = Int.sign 7)) :=
  ⟨⟨by decide, C10_srem_truncating (-7) 2 (by decide) (by decide) (by decide) (by decide)⟩,
   ⟨by decide, C10_srem_truncating 7 (-2) (by decide) (by decide) (by decide) (by decide)⟩⟩

/-! ## Coercion to complex -/

theorem eventsSince_append {Obj : Type} (w w' : World Obj) (evs : List (Event Obj))
    (h : w'.log = w.log ++ evs) : eventsSince w w' = evs := by
  unfold eventsSince
  rw [h, List.drop_left]

theorem update_update_self {Obj : Type} [DecidableEq Obj] (f : Obj → Int) (o : Obj) (k : Int) :
    Function.update (Function.update f o (f o + k)) o
      (Function.update f o (f o + k) o - k) = f := by
  funext x
  by_cases hx : x = o
  · subst hx
    simp
  · simp [Function.update, hx]

theorem update_twice_then_back {Obj : Type} [DecidableEq Obj] (f : Obj → Int) (o : Obj) :
    Function.update (Function.update (Function.update f o (f o + 1)) o
        (Function.update f o (f o + 1) o + 1)) o
      (Function.update (Function.update f o (f o + 1)) o
        (Function.update f o (f o + 1) o + 1) o - 1) = Function.update f o (f o + 1) := by
  funext x
  by_cases hx : x = o
  · subst hx
    simp
  · simp [Function.update, hx]

/-- The three paths of `Numba_to_complex`, each with its full outcome. -/
theorem Numba_to_complex_complex {Obj D : Type} [DecidableEq Obj] (h : Host Obj D) (obj : Obj)
    (out : Py_complex D) (w : World Obj) (hc : h.PyComplex_Check obj = true) :
    Numba_to_complex h obj out w =
      (1, { real := h.PyComplex_RealAsDouble obj, imag := h.PyComplex_ImagAsDouble obj }, w) := by
  simp [Numba_to_complex, hc]

theorem Numba_to_complex_failure {Obj D : Type} [DecidableEq Obj] (h : Host Obj D) (obj : Obj)
    (out : Py_complex D) (w : World Obj) (hc : h.PyComplex_Check obj = false)
    (hf : h.PyNumber_Float obj = none) :
    Numba_to_complex h obj out w =
      (0, out, { w with log := w.log ++ [Event.PyNumber_Float obj none] }) := by
  simp [Numba_to_complex, hc, callPyNumber_Float, hf]

theorem Numba_to_complex_float {Obj D : Type} [DecidableEq Obj] (h : Host Obj D) (obj : Obj)
    (out : Py_complex D) (w : World Obj) (hc : h.PyComplex_Check obj = false)
    (f : Obj) (hf : h.PyNumber_Float obj = some f) :
    Numba_to_complex h obj out w =
      (1, { real := h.PyFloat_AsDouble f, imag := h.zero },
        { w with log := w.log ++ [Event.PyNumber_Float obj (some f), Event.Py_DECREF f] }) := by
  simp [Numba_to_complex, hc, callPyNumber_Float, hf, Py_DECREF, update_update_self]

/-- C4: whenever `Numba_to_complex` returns 1, the output pair is determined:
for a complex-typed value it holds the value's real and imaginary parts and no
host call is logged (no float conversion is attempted); otherwise the host's
numeric-to-float conversion gave a float object, `out.real` is that object's
double and `out.imag` is `0.`. -/
theorem C4_to_complex_output {Obj D : Type} [DecidableEq Obj] (h : Host Obj D) (obj : Obj)
    (out : Py_complex D) (w : World Obj) (hret : (Numba_to_complex h obj out w).1 = 1) :
    (h.PyComplex_Check obj = true →
      (Numba_to_complex h obj out w).2.1 =
        { real := h.PyComplex_RealAsDouble obj, imag := h.PyComplex_ImagAsDouble obj } ∧
      eventsSince w (Numba_to_complex h obj out w).2.2 = []) ∧
    (h.PyComplex_Check obj = false →
      ∃ f, h.PyNumber_Float obj = some f ∧
        (Numba_to_complex h obj out w).2.1 = { real := h.PyFloat_AsDouble f, imag := h.zero }) := by
  constructor
  · intro hc
    rw [Numba_to_complex_complex h obj out w hc]
    exact ⟨rfl, eventsSince_append w w [] (by simp)⟩
  · intro hc
    cases hf : h.PyNumber_Float obj with
    | none =>
      rw [Numba_to_complex_failure h obj out w hc hf] at hret
      simp at hret
    | some f =>
      rw [Numba_to_complex_float h obj out w hc f hf]
      exact ⟨f, rfl, rfl⟩

/-- Witness for C4: in the small host, coercing the integer 3 succeeds with
real part 3 and imaginary part 0. -/
theorem C4_to_complex_output_witness :
    (Numba_to_complex toyHost (ToyObj.int 3) { real := 7, imag := 7 } emptyWorld).1 = 1 ∧
    (Numba_to_complex toyHost (ToyObj.int 3) { real := 7, imag := 7 } emptyWorld).2.1 =
      { real := 3, imag := 0 } ∧
    ((toyHost.PyComplex_Check (ToyObj.int 3) = true →
      (Numba_to_complex toyHost (ToyObj.int 3) { real := 7, imag := 7 } emptyWorld).2.1 =
        { real := toyHost.PyComplex_RealAsDouble (ToyObj.int 3),
          imag := toyHost.PyComplex_ImagAsDouble (ToyObj.int 3) } ∧
      eventsSince emptyWorld
        (Numba_to_complex toyHost (ToyObj.int 3) { real := 7, imag := 7 } emptyWorld).2.2 = []) ∧
    (toyHost.PyComplex_Check (ToyObj.int 3) = false →
      ∃ f, toyHost.PyNumber_Float (ToyObj.int 3) = some f ∧
        (Numba_to_complex toyHost (ToyObj.int 3) { real := 7, imag := 7 } emptyWorld).2.1 =
          { real := toyHost.PyFloat_AsDouble f, imag := toyHost.zero })) :=
  ⟨by decide, by decide,
    C4_to_complex_output toyHost (ToyObj.int 3) { real := 7, imag := 7 } emptyWorld (by decide)⟩

/-- C5: `Numba_to_complex` returns 0 exactly when the value is not
complex-typed and the host's numeric-to-float conversion of it fails, and
returns 1 in every other case; 0 and 1 are distinct, and in the small host the
string `"x"` yields 0. -/
theorem C5_to_complex_failure :
    (∀ (Obj D : Type) [DecidableEq Obj] (h : Host Obj D) (obj : Obj) (out : Py_complex D)
        (w : World Obj),
      ((Numba_to_complex h obj out w).1 = 0 ↔
        (h.PyComplex_Check obj = false ∧ h.PyNumber_Float obj = none)) ∧
      (¬ (h.PyComplex_Check obj = false ∧ h.PyNumber_Float obj = none) →
        (Numba_to_complex h obj out w).1 = 1)) ∧
    (0 : Int) ≠ 1 ∧
    (Numba_to_complex toyHost (ToyObj.str "x") { real := 7, imag := 7 } emptyWorld).1 = 0 := by
  refine ⟨?_, by decide, by decide⟩
  intro Obj D _ h obj out w
  cases hc : h.PyComplex_Check obj with
  | true =>
    rw [Numba_to_complex_complex h obj out w hc]
    simp
  | false =>
    cases hf : h.PyNumber_Float obj with
    | none =>
      rw [Numba_to_complex_failure h obj out w hc hf]
      simp
    | some f =>
      rw [Numba_to_complex_float h obj out w hc f hf]
      simp

/-- C8: a call of `Numba_to_complex` leaves every reference count (and every
view count) as it found it.  On the complex-typed path no host call is logged;
on the conversion-failure path the only call is the failed conversion, which
hands over no reference; on the conversion-success path the reference to the
float object is acquired once and released exactly once before the return. -/
theorem C8_to_complex_refcount {Obj D : Type} [DecidableEq Obj] (h : Host Obj D) (obj : Obj)
    (out : Py_complex D) (w : World Obj) :
    (∀ o, (Numba_to_complex h obj out w).2.2.ob_refcnt o = w.ob_refcnt o) ∧
    (∀ o, (Numba_to_complex h obj out w).2.2.views o = w.views o) ∧
    (h.PyComplex_Check obj = true →
      eventsSince w (Numba_to_complex h obj out w).2.2 = []) ∧
    (h.PyComplex_Check obj = false → h.PyNumber_Float obj = none →
      eventsSince w (Numba_to_complex h obj out w).2.2 = [Event.PyNumber_Float obj none] ∧
      (eventsSince w (Numba_to_complex h obj out w).2.2).filterMap Event.acquiredRef = [] ∧
      (eventsSince w (Numba_to_complex h obj out w).2.2).filterMap Event.releasedRef = []) ∧
    (∀ f, h.PyComplex_Check obj = false → h.PyNumber_Float obj = some f →
      eventsSince w (Numba_to_complex h obj out w).2.2 =
        [Event.PyNumber_Float obj (some f), Event.Py_DECREF f] ∧
      (eventsSince w (Numba_to_complex h obj out w).2.2).filterMap Event.acquiredRef = [f] ∧
      (eventsSince w (Numba_to_complex h obj out w).2.2).filterMap Event.releasedRef = [f] ∧
      ((eventsSince w (Numba_to_complex h obj out w).2.2).filter
        (fun e => e = Event.Py_DECREF f)).length = 1) := by
  cases hc : h.PyComplex_Check obj with
  | true =>
    rw [Numba_to_complex_complex h obj out w hc]
    simp [eventsSince]
  | false =>
    cases hf : h.PyNumber_Float obj with
    | none =>
      rw [Numba_to_complex_failure h obj out w hc hf]
      simp [eventsSince, Event.acquiredRef, Event.releasedRef]
    | some f =>
      rw [Numba_to_complex_float h obj out w hc f hf]
      simp [eventsSince, Event.acquiredRef, Event.releasedRef]

/-- Witness for C8: in the small host, coercing the integer 3 acquires the
reference to the float object 3 once and releases it once, and leaves every
reference count as before the call. -/
theorem C8_to_complex_refcount_witness :
    (∀ o, (Numba_to_complex toyHost (ToyObj.int 3) { real := 7, imag := 7 }
        emptyWorld).2.2.ob_refcnt o = emptyWorld.ob_refcnt o) ∧
    eventsSince emptyWorld
        (Numba_to_complex toyHost (ToyObj.int 3) { real := 7, imag := 7 } emptyWorld).2.2 =
      [Event.PyNumber_Float (ToyObj.int 3) (some (ToyObj.float 3)),
        Event.Py_DECREF (ToyObj.float 3)] :=
  ⟨(C8_to_complex_refcount toyHost (ToyObj.int 3) { real := 7, imag := 7 } emptyWorld).1,
   ((C8_to_complex_refcount toyHost (ToyObj.int 3) { real := 7, imag := 7 }
      emptyWorld).2.2.2.2 (ToyObj.float 3) rfl rfl).1⟩

/-! ## Record data extraction -/

/-- Path: the attribute lookup fails. -/
theorem extract_no_attr {Obj D : Type} [DecidableEq Obj] (h : Host Obj D) (v : Nat)
    (recordobj : Obj) (w : World Obj)
    (ha : h.PyObject_GetAttrString recordobj "data" = none) :
    Numba_extract_record_data h v recordobj w =
      some (NULL, { w with log := w.log ++ [Event.PyObject_GetAttrString recordobj "data" none] }) := by
  simp [Numba_extract_record_data, callPyObject_GetAttrString, ha]

/-- Path: the attribute lookup and the buffer request both succeed. -/
theorem extract_view {Obj D : Type} [DecidableEq Obj] (h : Host Obj D) (v : Nat)
    (recordobj : Obj) (w : World Obj) (a : Obj) (buf : Py_buffer)
    (ha : h.PyObject_GetAttrString recordobj "data" = some a)
    (hb : h.PyObject_GetBuffer a = some buf) :
    Numba_extract_record_data h v recordobj w =
      some (buf.buf,
        { ob_refcnt := Function.update w.ob_refcnt a (w.ob_refcnt a + 1)
          views := Function.update w.views a (w.views a + 1)
          log := w.log ++ [Event.PyObject_GetAttrString recordobj "data" (some a),
            Event.PyObject_GetBuffer a (some buf), Event.Py_DECREF a] }) := by
  simp [Numba_extract_record_data, callPyObject_GetAttrString, ha, callPyObject_GetBuffer, hb,
    Py_DECREF, update_twice_then_back]

/-- Path: the buffer request fails in a build for host major version 3 or
later. -/
theorem extract_no_view_py3 {Obj D : Type} [DecidableEq Obj] (h : Host Obj D) (v : Nat)
    (recordobj : Obj) (w : World Obj) (a : Obj) (hv : 3 ≤ v)
    (ha : h.PyObject_GetAttrString recordobj "data" = some a)
    (hb : h.PyObject_GetBuffer a = none) :
    Numba_extract_record_data h v recordobj w =
      some (NULL,
        { ob_refcnt := Function.update w.ob_refcnt a (w.ob_refcnt a + 1)
          views := w.views
          log := w.log ++ [Event.PyObject_GetAttrString recordobj "data" (some a),
            Event.PyObject_GetBuffer a none] }) := by
  simp [Numba_extract_record_data, callPyObject_GetAttrString, ha, callPyObject_GetBuffer, hb, hv]

/-- Path: legacy branch, buffer object without base. -/
theorem extract_legacy_own {Obj D : Type} [DecidableEq Obj] (h : Host Obj D) (v : Nat)
    (recordobj : Obj) (w : World Obj) (a : Obj) (hv : v < 3)
    (ha : h.PyObject_GetAttrString recordobj "data" = some a)
    (hb : h.PyObject_GetBuffer a = none) (hbase : h.b_base a = none) :
    Numba_extract_record_data h v recordobj w =
      some (h.b_ptr a,
        { ob_refcnt := w.ob_refcnt
          views := w.views
          log := w.log ++ [Event.PyObject_GetAttrString recordobj "data" (some a),
            Event.PyObject_GetBuffer a none, Event.Py_DECREF a] }) := by
  have hv' : ¬ 3 ≤ v := by omega
  simp [Numba_extract_record_data, callPyObject_GetAttrString, ha, callPyObject_GetBuffer, hb,
    hv', hbase, Py_DECREF, update_update_self]

/-- Path: legacy branch, buffer object on a base whose read-buffer procedure
reports a positive count. -/
theorem extract_legacy_base {Obj D : Type} [DecidableEq Obj] (h : Host Obj D) (v : Nat)
    (recordobj : Obj) (w : World Obj) (a base : Obj) (n : Int) (p : Ptr) (hv : v < 3)
    (ha : h.PyObject_GetAttrString recordobj "data" = some a)
    (hb : h.PyObject_GetBuffer a = none) (hbase : h.b_base a = some base)
    (hp : h.bf_getreadbuffer base = some (n, p)) (hn : 0 < n) :
    Numba_extract_record_data h v recordobj w =
      some (p + h.b_offset a,
        { ob_refcnt := w.ob_refcnt
          views := w.views
          log := w.log ++ [Event.PyObject_GetAttrString recordobj "data" (some a),
            Event.PyObject_GetBuffer a none, Event.Py_DECREF a] }) := by
  have hv' : ¬ 3 ≤ v := by omega
  have hn' : ¬ n ≤ 0 := by omega
  simp [Numba_extract_record_data, callPyObject_GetAttrString, ha, callPyObject_GetBuffer, hb,
    hv', hbase, hp, hn', Py_DECREF, update_update_self]

/-- Path: legacy branch, buffer object on a base whose read-buffer procedure
reports a count of zero or less. -/
theorem extract_legacy_base_fail {Obj D : Type} [DecidableEq Obj] (h : Host Obj D) (v : Nat)
    (recordobj : Obj) (w : World Obj) (a base : Obj) (n : Int) (p : Ptr) (hv : v < 3)
    (ha : h.PyObject_GetAttrString recordobj "data" = some a)
    (hb : h.PyObject_GetBuffer a = none) (hbase : h.b_base a = some base)
    (hp : h.bf_getreadbuffer base = some (n, p)) (hn : n ≤ 0) :
    Numba_extract_record_data h v recordobj w =
      some (NULL,
        { ob_refcnt := Function.update w.ob_refcnt a (w.ob_refcnt a + 1)
          views := w.views
          log := w.log ++ [Event.PyObject_GetAttrString recordobj "data" (some a),
            Event.PyObject_GetBuffer a none] }) := by
  have hv' : ¬ 3 ≤ v := by omega
  simp [Numba_extract_record_data, callPyObject_GetAttrString, ha, callPyObject_GetBuffer, hb,
    hv', hbase, hp, hn]

/-- C6, as stated, fails in a build for a host major version below 3: in the
small host the record's `data` attribute exists, the buffer request on it
fails, and the call returns the non-null address 4096. -/
theorem C6_extract_failure_fails :
    toyHost.PyObject_GetAttrString (ToyObj.record (ToyObj.oldbuffer 4096 0)) "data" =
      some (ToyObj.oldbuffer 4096 0) ∧
    toyHost.PyObject_GetBuffer (ToyObj.oldbuffer 4096 0) = none ∧
    (Numba_extract_record_data toyHost 2 (ToyObj.record (ToyObj.oldbuffer 4096 0))
      emptyWorld).map Prod.fst = some 4096 ∧
    (4096 : Ptr) ≠ NULL := by
  refine ⟨rfl, rfl, ?_, by decide⟩
  rw [extract_legacy_own toyHost 2 (ToyObj.record (ToyObj.oldbuffer 4096 0)) emptyWorld
    (ToyObj.oldbuffer 4096 0) (by decide) rfl rfl rfl]
  rfl

/-- C6 (amended): `Numba_extract_record_data` returns `NULL` when the `data`
attribute lookup fails; it returns exactly the base address reported by the
buffer view when the lookup and the buffer request both succeed; when the
lookup succeeds and the buffer request fails it returns `NULL` in a build for
host major version 3 or later, while a build for an older host enters the
legacy branch and returns the buffer object's `b_ptr` (no base), the base's
read-buffer pointer plus `b_offset` (positive count), or `NULL` (count of zero
or less). -/
theorem C6_extract_result {Obj D : Type} [DecidableEq Obj] (h : Host Obj D) (v : Nat)
    (recordobj : Obj) (w : World Obj) :
    (h.PyObject_GetAttrString recordobj "data" = none →
      (Numba_extract_record_data h v recordobj w).map Prod.fst = some NULL) ∧
    (∀ a buf, h.PyObject_GetAttrString recordobj "data" = some a →
      h.PyObject_GetBuffer a = some buf →
      (Numba_extract_record_data h v recordobj w).map Prod.fst = some buf.buf) ∧
    (∀ a, h.PyObject_GetAttrString recordobj "data" = some a →
      h.PyObject_GetBuffer a = none → 3 ≤ v →
      (Numba_extract_record_data h v recordobj w).map Prod.fst = some NULL) ∧
    (∀ a, h.PyObject_GetAttrString recordobj "data" = some a →
      h.PyObject_GetBuffer a = none → v < 3 → h.b_base a = none →
      (Numba_extract_record_data h v recordobj w).map Prod.fst = some (h.b_ptr a)) ∧
    (∀ a base n p, h.PyObject_GetAttrString recordobj "data" = some a →
      h.PyObject_GetBuffer a = none → v < 3 → h.b_base a = some base →
      h.bf_getreadbuffer base = some (n, p) → 0 < n →
      (Numba_extract_record_data h v recordobj w).map Prod.fst = some (p + h.b_offset a)) ∧
    (∀ a base n p, h.PyObject_GetAttrString recordobj "data" = some a →
      h.PyObject_GetBuffer a = none → v < 3 → h.b_base a = some base →
      h.bf_getreadbuffer base = some (n, p) → n ≤ 0 →
      (Numba_extract_record_data h v recordobj w).map Prod.fst = some NULL) := by
  refine ⟨?_, ?_, ?_, ?_, ?_, ?_⟩
  · intro ha
    rw [extract_no_attr h v recordobj w ha]
    rfl
  · intro a buf ha hb
    rw [extract_view h v recordobj w a buf ha hb]
    rfl
  · intro a ha hb hv
    rw [extract_no_view_py3 h v recordobj w a hv ha hb]
    rfl
  · intro a ha hb hv hbase
    rw [extract_legacy_own h v recordobj w a hv ha hb hbase]
    rfl
  · intro a base n p ha hb hv hbase hp hn
    rw [extract_legacy_base h v recordobj w a base n p hv ha hb hbase hp hn]
    rfl
  · intro a base n p ha hb hv hbase hp hn
    rw [extract_legacy_base_fail h v recordobj w a base n p hv ha hb hbase hp hn]
    rfl

/-- Witness for C6 (amended): in the small host, built for major version 3, a
record without `data` gives `NULL`, a record whose `data` exports a view at
4096 gives 4096, and a record whose `data` is a string gives `NULL`. -/
theorem C6_extract_result_witness :
    (Numba_extract_record_data toyHost 3 ToyObj.bare emptyWorld).map Prod.fst = some NULL ∧
    (Numba_extract_record_data toyHost 3 (ToyObj.record (ToyObj.array 4096))
      emptyWorld).map Prod.fst = some 4096 ∧
    (Numba_extract_record_data toyHost 3 (ToyObj.record (ToyObj.str "x"))
      emptyWorld).map Prod.fst = some NULL :=
  ⟨(C6_extract_result toyHost 3 ToyObj.bare emptyWorld).1 rfl,
   (C6_extract_result toyHost 3 (ToyObj.record (ToyObj.array 4096)) emptyWorld).2.1
      (ToyObj.array 4096) { buf := 4096 } rfl rfl,
   (C6_extract_result toyHost 3 (ToyObj.record (ToyObj.str "x")) emptyWorld).2.2.1
      (ToyObj.str "x") rfl rfl (by decide)⟩

/-- C9, as stated, fails: in the small host a successful call leaves the
buffer view it obtained on the `data` object open at return (one view more
than before the call), and with it the reference that the view holds on the
`data` object (a reference count one higher than before the call). -/
theorem C9_extract_releases_fails :
    ∃ w', Numba_extract_record_data toyHost 3 (ToyObj.record (ToyObj.array 4096)) emptyWorld =
        some (4096, w') ∧
      emptyWorld.views (ToyObj.array 4096) = 0 ∧
      w'.views (ToyObj.array 4096) = 1 ∧
      (eventsSince emptyWorld w').filterMap Event.acquiredView = [ToyObj.array 4096] ∧
      emptyWorld.ob_refcnt (ToyObj.array 4096) = 0 ∧
      w'.ob_refcnt (ToyObj.array 4096) = 1 := by
  refine ⟨_, extract_view toyHost 3 (ToyObj.record (ToyObj.array 4096)) emptyWorld
    (ToyObj.array 4096) { buf := 4096 } rfl rfl, rfl, ?_, ?_, rfl, ?_⟩
  · simp [emptyWorld]
  · simp [eventsSince, emptyWorld, Event.acquiredView]
  · simp [emptyWorld]

/-- C9 (amended): when the `data` attribute lookup fails, a call of
`Numba_extract_record_data` acquires nothing.  When the lookup and the buffer
request both succeed, the new reference to the `data` object is released
exactly once before the return, while the buffer view stays open at return
together with the reference it holds on the `data` object: that object has one
view more and a reference count one higher than before the call, every other
count being unchanged.  When the legacy branch recovers a pointer, the new
reference is released exactly once, no view was opened and every count is as
before the call. -/
theorem C9_extract_resources {Obj D : Type} [DecidableEq Obj] (h : Host Obj D) (v : Nat)
    (recordobj : Obj) (w : World Obj) :
    (h.PyObject_GetAttrString recordobj "data" = none →
      ∃ p w', Numba_extract_record_data h v recordobj w = some (p, w') ∧
        w'.ob_refcnt = w.ob_refcnt ∧ w'.views = w.views ∧
        (eventsSince w w').filterMap Event.acquiredRef = [] ∧
        (eventsSince w w').filterMap Event.acquiredView = []) ∧
    (∀ a buf, h.PyObject_GetAttrString recordobj "data" = some a →
      h.PyObject_GetBuffer a = some buf →
      ∃ p w', Numba_extract_record_data h v recordobj w = some (p, w') ∧
        w'.ob_refcnt = Function.update w.ob_refcnt a (w.ob_refcnt a + 1) ∧
        w'.views = Function.update w.views a (w.views a + 1) ∧
        eventsSince w w' = [Event.PyObject_GetAttrString recordobj "data" (some a),
          Event.PyObject_GetBuffer a (some buf), Event.Py_DECREF a] ∧
        (eventsSince w w').filterMap Event.acquiredRef = [a, a] ∧
        (eventsSince w w').filterMap Event.releasedRef = [a] ∧
        (eventsSince w w').filterMap Event.acquiredView = [a]) ∧
    (∀ a, h.PyObject_GetAttrString recordobj "data" = some a →
      h.PyObject_GetBuffer a = none → v < 3 →
      (h.b_base a = none ∨
        ∃ base n p, h.b_base a = some base ∧ h.bf_getreadbuffer base = some (n, p) ∧ 0 < n) →
      ∃ p w', Numba_extract_record_data h v recordobj w = some (p, w') ∧
        w'.ob_refcnt = w.ob_refcnt ∧ w'.views = w.views ∧
        (eventsSince w w').filterMap Event.acquiredRef = [a] ∧
        (eventsSince w w').filterMap Event.releasedRef = [a] ∧
        (eventsSince w w').filterMap Event.acquiredView = []) := by
  refine ⟨?_, ?_, ?_⟩
  · intro ha
    refine ⟨_, _, extract_no_attr h v recordobj w ha, rfl, rfl, ?_, ?_⟩ <;>
      simp [eventsSince, Event.acquiredRef, Event.acquiredView]
  · intro a buf ha hb
    refine ⟨_, _, extract_view h v recordobj w a buf ha hb, rfl, rfl, ?_, ?_, ?_, ?_⟩ <;>
      simp [eventsSince, Event.acquiredRef, Event.releasedRef, Event.acquiredView]
  · intro a ha hb hv hcase
    rcases hcase with hbase | ⟨base, n, p, hbase, hp, hn⟩
    · refine ⟨_, _, extract_legacy_own h v recordobj w a hv ha hb hbase, rfl, rfl, ?_, ?_, ?_⟩ <;>
        simp [eventsSince, Event.acquiredRef, Event.releasedRef, Event.acquiredView]
    · refine ⟨_, _, extract_legacy_base h v recordobj w a base n p hv ha hb hbase hp hn,
        rfl, rfl, ?_, ?_, ?_⟩ <;>
        simp [eventsSince, Event.acquiredRef, Event.releasedRef, Event.acquiredView]

/-- Witness for C9 (amended): in the small host, a record without `data`, a
record whose `data` exports a view, and (built for major version 2) a record
whose `data` is a legacy buffer object on a base. -/
theorem C9_extract_resources_witness :
    (∃ p w', Numba_extract_record_data toyHost 3 ToyObj.bare emptyWorld = some (p, w') ∧
        w'.ob_refcnt = emptyWorld.ob_refcnt ∧ w'.views = emptyWorld.views ∧
        (eventsSince emptyWorld w').filterMap Event.acquiredRef = [] ∧
        (eventsSince emptyWorld w').filterMap Event.acquiredView = []) ∧
    (∃ p w', Numba_extract_record_data toyHost 3 (ToyObj.record (ToyObj.array 4096))
          emptyWorld = some (p, w') ∧
        w'.ob_refcnt = Function.update emptyWorld.ob_refcnt (ToyObj.array 4096)
          (emptyWorld.ob_refcnt (ToyObj.array 4096) + 1) ∧
        w'.views = Function.update emptyWorld.views (ToyObj.array 4096)
          (emptyWorld.views (ToyObj.array 4096) + 1) ∧
        eventsSince emptyWorld w' =
          [Event.PyObject_GetAttrString (ToyObj.record (ToyObj.array 4096)) "data"
            (some (ToyObj.array 4096)),
           Event.PyObject_GetBuffer (ToyObj.array 4096) (some { buf := 4096 }),
           Event.Py_DECREF (ToyObj.array 4096)] ∧
        (eventsSince emptyWorld w').filterMap Event.acquiredRef =
          [ToyObj.array 4096, ToyObj.array 4096] ∧
        (eventsSince emptyWorld w').filterMap Event.releasedRef = [ToyObj.array 4096] ∧
        (eventsSince emptyWorld w').filterMap Event.acquiredView = [ToyObj.array 4096]) ∧
    (∃ p w', Numba_extract_record_data toyHost 2
          (ToyObj.record (ToyObj.oldbufferOn (ToyObj.array 4096) 16)) emptyWorld = some (p, w') ∧
        w'.ob_refcnt = emptyWorld.ob_refcnt ∧ w'.views = emptyWorld.views ∧
        (eventsSince emptyWorld w').filterMap Event.acquiredRef =
          [ToyObj.oldbufferOn (ToyObj.array 4096) 16] ∧
        (eventsSince emptyWorld w').filterMap Event.releasedRef =
          [ToyObj.oldbufferOn (ToyObj.array 4096) 16] ∧
        (eventsSince emptyWorld w').filterMap Event.acquiredView = []) :=
  ⟨(C9_extract_resources toyHost 3 ToyObj.bare emptyWorld).1 rfl,
   (C9_extract_resources toyHost 3 (ToyObj.record (ToyObj.array 4096)) emptyWorld).2.1
      (ToyObj.array 4096) { buf := 4096 } rfl rfl,
   (C9_extract_resources toyHost 2 (ToyObj.record (ToyObj.oldbufferOn (ToyObj.array 4096) 16))
      emptyWorld).2.2 (ToyObj.oldbufferOn (ToyObj.array 4096) 16) rfl rfl (by decide)
      (Or.inr ⟨ToyObj.array 4096, 8, 4096, rfl, rfl, by decide⟩)⟩

/-- The early `return NULL` after a failed buffer request keeps the new
reference to the `data` object: in the small host, built for major version 3,
the reference count of the `data` object is one higher after the call and no
event of the call releases a reference. -/
theorem extract_failure_keeps_reference :
    ∃ w', Numba_extract_record_data toyHost 3 (ToyObj.record (ToyObj.str "x")) emptyWorld =
        some (NULL, w') ∧
      emptyWorld.ob_refcnt (ToyObj.str "x") = 0 ∧
      w'.ob_refcnt (ToyObj.str "x") = 1 ∧
      (eventsSince emptyWorld w').filterMap Event.releasedRef = [] := by
  refine ⟨_, extract_no_view_py3 toyHost 3 (ToyObj.record (ToyObj.str "x")) emptyWorld
    (ToyObj.str "x") (by decide) rfl rfl, rfl, ?_, ?_⟩
  · simp [emptyWorld]
  · simp [eventsSince, emptyWorld, Event.releasedRef]

/-! ## Registry -/

theorem get_append_inj (F G : String) (h : "get_" ++ F = "get_" ++ G) : F = G := by
  have h' := congrArg String.data h
  simp only [String.data_append] at h'
  exact String.ext (List.append_cancel_left h')

/-- No accessor generated from `mathnames.inc` carries one of the seven
exposed names, when no listed function is named like an exposed suffix. -/
theorem math_names_fresh (mathnames : List String)
    (hm : ∀ F ∈ mathnames, F ∉ exposedSuffixes) (s : String) (hs : s ∈ exposedSuffixes) :
    (mathnames.map (fun F => "get_" ++ F)).count ("get_" ++ s) = 0 := by
  rw [List.count_eq_zero]
  intro hmem
  obtain ⟨F, hF, hFs⟩ := List.mem_map.mp hmem
  have := get_append_inj F s hFs
  subst this
  exact hm F hF hs

theorem ext_methods_names (mathnames : List String) :
    (ext_methods mathnames).map PyMethodDef.ml_name =
      ["get_sdiv", "get_srem", "get_udiv", "get_urem", "get_cpow", "get_complex_adaptor",
        "get_extract_record_data"] ++ mathnames.map (fun F => "get_" ++ F) := by
  simp [ext_methods, declmethod, Function.comp_def]

theorem lookup_eq_none (mathnames : List String) (name : String)
    (hn : name ∉ (ext_methods mathnames).map PyMethodDef.ml_name) :
    lookup mathnames name = none := by
  have hfind : (ext_methods mathnames).find? (fun m => m.ml_name == name) = none := by
    rw [List.find?_eq_none]
    intro m hmem hm
    exact hn (List.mem_map.mpr ⟨m, hmem, by simpa using hm⟩)
  unfold lookup
  rw [hfind]

/-- C7: for every list of math functions in `mathnames.inc` none of which is
named like an exposed suffix (otherwise `get_F` would be defined twice), each
of the seven accessor names occurs exactly once among the names of
`ext_methods`, its entry points to the accessor of the same name, that accessor
returns the address of its own helper, lookup of the name yields that helper,
and lookup of a name that is not in the table fails. -/
theorem C7_registry (mathnames : List String) (hm : ∀ F ∈ mathnames, F ∉ exposedSuffixes) :
    (∀ p ∈ exposedBindings,
      ((ext_methods mathnames).map PyMethodDef.ml_name).count p.1 = 1 ∧
      (∃ m, (ext_methods mathnames).find? (fun m => m.ml_name == p.1) = some m ∧
        m.ml_meth = p.1) ∧
      accessorTarget mathnames p.1 = some p.2 ∧
      lookup mathnames p.1 = some p.2) ∧
    (∀ name, name ∉ (ext_methods mathnames).map PyMethodDef.ml_name →
      lookup mathnames name = none) := by
  refine ⟨?_, lookup_eq_none mathnames⟩
  have h1 := math_names_fresh mathnames hm "sdiv" (by decide)
  have h2 := math_names_fresh mathnames hm "srem" (by decide)
  have h3 := math_names_fresh mathnames hm "udiv" (by decide)
  have h4 := math_names_fresh mathnames hm "urem" (by decide)
  have h5 := math_names_fresh mathnames hm "cpow" (by decide)
  have h6 := math_names_fresh mathnames hm "complex_adaptor" (by decide)
  have h7 := math_names_fresh mathnames hm "extract_record_data" (by decide)
  have e1 : "get_" ++ "sdiv" = "get_sdiv" := by decide
  have e2 : "get_" ++ "srem" = "get_srem" := by decide
  have e3 : "get_" ++ "udiv" = "get_udiv" := by decide
  have e4 : "get_" ++ "urem" = "get_urem" := by decide
  have e5 : "get_" ++ "cpow" = "get_cpow" := by decide
  have e6 : "get_" ++ "complex_adaptor" = "get_complex_adaptor" := by decide
  have e7 : "get_" ++ "extract_record_data" = "get_extract_record_data" := by decide
  rw [e1] at h1
  rw [e2] at h2
  rw [e3] at h3
  rw [e4] at h4
  rw [e5] at h5
  rw [e6] at h6
  rw [e7] at h7
  intro p hp
  rw [ext_methods_names, List.count_append]
  simp only [exposedBindings, List.mem_cons, List.mem_singleton, List.not_mem_nil,
    or_false] at hp
  rcases hp with rfl | rfl | rfl | rfl | rfl | rfl | rfl
  · refine ⟨by rw [h1]; decide, ⟨declmethod "get_sdiv", ?_, rfl⟩, ?_, ?_⟩ <;>
      simp [lookup, accessorTarget, ext_methods, accessors, declmethod, EXPOSE]
  · refine ⟨by rw [h2]; decide, ⟨declmethod "get_srem", ?_, rfl⟩, ?_, ?_⟩ <;>
      simp [lookup, accessorTarget, ext_methods, accessors, declmethod, EXPOSE]
  · refine ⟨by rw [h3]; decide, ⟨declmethod "get_udiv", ?_, rfl⟩, ?_, ?_⟩ <;>
      simp [lookup, accessorTarget, ext_methods, accessors, declmethod, EXPOSE]
  · refine ⟨by rw [h4]; decide, ⟨declmethod "get_urem", ?_, rfl⟩, ?_, ?_⟩ <;>
      simp [lookup, accessorTarget, ext_methods, accessors, declmethod, EXPOSE]
  · refine ⟨by rw [h5]; decide, ⟨declmethod "get_cpow", ?_, rfl⟩, ?_, ?_⟩ <;>
      simp [lookup, accessorTarget, ext_methods, accessors, declmethod, EXPOSE]
  · refine ⟨by rw [h6]; decide, ⟨declmethod "get_complex_adaptor", ?_, rfl⟩, ?_, ?_⟩ <;>
      simp [lookup, accessorTarget, ext_methods, accessors, declmethod, EXPOSE]
  · refine ⟨by rw [h7]; decide, ⟨declmethod "get_extract_record_data", ?_, rfl⟩, ?_, ?_⟩ <;>
      simp [lookup, accessorTarget, ext_methods, accessors, declmethod, EXPOSE]

/-- Witness for C7 with `mathnames.inc` listing `sin`, `cos` and `pow`. -/
theorem C7_registry_witness :
    (∀ F ∈ ["sin", "cos", "pow"], F ∉ exposedSuffixes) ∧
    (∀ p ∈ exposedBindings,
      ((ext_methods ["sin", "cos", "pow"]).map PyMethodDef.ml_name).count p.1 = 1 ∧
      (∃ m, (ext_methods ["sin", "cos", "pow"]).find? (fun m => m.ml_name == p.1) = some m ∧
        m.ml_meth = p.1) ∧
      accessorTarget ["sin", "cos", "pow"] p.1 = some p.2 ∧
      lookup ["sin", "cos", "pow"] p.1 = some p.2) ∧
    (∀ name, name ∉ (ext_methods ["sin", "cos", "pow"]).map PyMethodDef.ml_name →
      lookup ["sin", "cos", "pow"] name = none) :=
  ⟨by decide, C7_registry ["sin", "cos", "pow"] (by decide)⟩

end Helperlib
